import Mathlib

/-!
Shallow embedding of the telemetry instrumentation layer of the
Embrace-Ecommerce-React-Native repository.

The embedded code lives in:
* `src/src/services/embrace.ts` — the `EmbraceService` class: span registry
  (a JS `Map<string, Span>` named `activeSpans`), session properties,
  breadcrumbs, logs, network records, and the CI crash-simulation scheduler;
* `src/unnamed/part_004` — the `APIService` class, in particular its private
  `executeRequest` wrapper that brackets every mock network operation with a
  span plus a network-request or network-error record.

Modelling conventions:
* The backend SDK calls (`addBreadcrumb`, `logMessage`, `addSessionProperty`,
  `recordNetworkRequest`, `logNetworkClientError`, span `end`, …) are
  modelled as events appended to an `events` trace inside `EmbraceState`.
* The JS `Map<string, Span>` is modelled as an association list with unique
  keys; `Map.get` is `lookupKey`, `Map.set` is `setKey` (replace if the key
  exists, else append — JS maps keep insertion order), `Map.delete` is
  `eraseKey`.
* An OpenTelemetry span status starts UNSET; the only `setStatus` call in the
  source is `span.setStatus({code: SpanStatusCode.ERROR})` inside `endSpan`
  when `success` is false, so a span closed by `endSpan` carries status
  `.error` exactly when `success = false` and `.unset` otherwise.
* `Date.now()` results and `Math.random()` draws are passed in as explicit
  parameters; `Math.floor(Math.random() * n)` is a natural number below `n`.
* A thrown JS value is `Thrown.jsError msg` when it is an `Error` instance
  with message `msg`, and `Thrown.other repr` for any non-`Error` value.
-/

/-- Association-list lookup, modelling JS `Map.prototype.get`. -/
def lookupKey {α : Type} (k : String) : List (String × α) → Option α
  | [] => none
  | (k2, v) :: rest => if k2 = k then some v else lookupKey k rest

/-- Association-list insert-or-replace, modelling JS `Map.prototype.set`:
an existing key keeps its position and gets the new value, a new key is
appended (JS maps preserve insertion order). -/
def setKey {α : Type} (k : String) (v : α) : List (String × α) → List (String × α)
  | [] => [(k, v)]
  | (k2, v2) :: rest => if k2 = k then (k, v) :: rest else (k2, v2) :: setKey k v rest

/-- Association-list removal of a key, modelling JS `Map.prototype.delete`
(on a map with unique keys, filtering out the key is exactly deletion). -/
def eraseKey {α : Type} (k : String) (l : List (String × α)) : List (String × α) :=
  l.filter (fun p => p.1 ≠ k)

/-- Whether a key is present, modelling JS `Map.prototype.has`. -/
def containsKey {α : Type} (k : String) (l : List (String × α)) : Bool :=
  (lookupKey k l).isSome

/-- Log severities, from `type LogSeverity` in `embrace.ts`. -/
inductive LogSeverity
  | info
  | warning
  | error
deriving DecidableEq, Repr

/-- Terminal status of a span, from `@opentelemetry/api`'s `SpanStatusCode`.
A span's status is UNSET until a `setStatus` call changes it. -/
inductive SpanStatus
  | unset
  | ok
  | error
deriving DecidableEq, Repr

/-- A live span held in the `activeSpans` registry: its name and its mutable
attribute bag (`span.setAttribute` writes into it). Status is not stored
because the only `setStatus` in the source happens at `endSpan` time. -/
structure SpanRec where
  name : String
  attrs : List (String × String)
deriving DecidableEq, Repr

/-- One backend SDK call emitted by the instrumentation layer. -/
inductive TelemetryEvent
  | breadcrumb (message : String)
  | logSimple (sev : LogSeverity) (message : String)
  | logWithProps (sev : LogSeverity) (message : String)
      (props : List (String × String)) (includeStacktrace : Bool)
  | handledError (message : String) (props : List (String × String))
  | spanEnded (name : String) (attrs : List (String × String)) (status : SpanStatus)
  | completedSpan (name : String) (startTime endTime : Nat)
      (attrs : List (String × String)) (status : SpanStatus)
  | networkRequest (url method : String) (startTime endTime : Nat)
      (bytesSent bytesReceived statusCode : Nat)
  | networkError (url method : String) (startTime endTime : Nat)
      (errorType errorMessage : String)
  | sessionPropertySet (key value : String) (permanent : Bool)
  | sessionPropertyRemoved (key : String)
deriving DecidableEq, Repr

/-- State of the `EmbraceService` singleton: the `isInitialized` flag, whether
the tracer provider is available (`this.tracer !== null`), the `activeSpans`
registry, and the trace of backend calls made so far. -/
structure EmbraceState where
  isInitialized : Bool
  hasTracer : Bool
  activeSpans : List (String × SpanRec)
  events : List TelemetryEvent
deriving DecidableEq, Repr

/-- The service state right after a successful `initialize()` as far as the
claims need it: initialized, tracer available, empty registry. -/
def initState : EmbraceState :=
  { isInitialized := true, hasTracer := true, activeSpans := [], events := [] }

namespace EmbraceService

/-- Embeds `EmbraceService.addBreadcrumb` (embrace.ts lines 147-154): no-op
when not initialized, else one backend breadcrumb call. -/
def addBreadcrumb (s : EmbraceState) (message : String) : EmbraceState :=
  if s.isInitialized then
    { s with events := s.events ++ [TelemetryEvent.breadcrumb message] }
  else s

/-- Embeds `EmbraceService.logInfo` (lines 160-171): no-op when not
initialized; with properties it calls `logMessage(message, 'info', props,
false)`, without it calls the plain `logInfo(message)`. -/
def logInfo (s : EmbraceState) (message : String)
    (properties : Option (List (String × String))) : EmbraceState :=
  if s.isInitialized then
    match properties with
    | some props =>
        { s with events := s.events ++ [TelemetryEvent.logWithProps .info message props false] }
    | none =>
        { s with events := s.events ++ [TelemetryEvent.logSimple .info message] }
  else s

/-- Embeds `EmbraceService.logWarning` (lines 173-184). -/
def logWarning (s : EmbraceState) (message : String)
    (properties : Option (List (String × String))) : EmbraceState :=
  if s.isInitialized then
    match properties with
    | some props =>
        { s with events := s.events ++ [TelemetryEvent.logWithProps .warning message props true] }
    | none =>
        { s with events := s.events ++ [TelemetryEvent.logSimple .warning message] }
  else s

/-- Embeds `EmbraceService.logError` (lines 186-197). -/
def logError (s : EmbraceState) (message : String)
    (properties : Option (List (String × String))) : EmbraceState :=
  if s.isInitialized then
    match properties with
    | some props =>
        { s with events := s.events ++ [TelemetryEvent.logWithProps .error message props true] }
    | none =>
        { s with events := s.events ++ [TelemetryEvent.logSimple .error message] }
  else s

/-- Embeds `EmbraceService.logHandledError` (lines 205-212): no-op when not
initialized, else `logHandledError(error, properties || {})`. -/
def logHandledError (s : EmbraceState) (errorMessage : String)
    (properties : Option (List (String × String))) : EmbraceState :=
  if s.isInitialized then
    { s with events := s.events ++
        [TelemetryEvent.handledError errorMessage (properties.getD [])] }
  else s

/-- Embeds `EmbraceService.startSpan` (lines 218-231): returns `null` when
not initialized or the tracer is unavailable; else opens a span with the
given initial attributes under handle `name + "_" + Date.now()` and stores
it in `activeSpans`. `now` stands for the `Date.now()` call. -/
def startSpan (s : EmbraceState) (name : String) (attributes : List (String × String))
    (now : Nat) : EmbraceState × Option String :=
  if s.isInitialized ∧ s.hasTracer then
    let spanId := name ++ "_" ++ toString now
    ({ s with activeSpans := setKey spanId ⟨name, attributes⟩ s.activeSpans }, some spanId)
  else (s, none)

/-- Embeds `EmbraceService.endSpan` (lines 233-247): no-op when not
initialized; looks the handle up in `activeSpans`; when absent, nothing
happens; when present, `setStatus(ERROR)` is applied exactly when `success`
is false, the span is ended (emitting it with its final status — `.unset`
when no status was ever set) and the handle is deleted from the registry. -/
def endSpan (s : EmbraceState) (spanId : String) (success : Bool) : EmbraceState :=
  if s.isInitialized then
    match lookupKey spanId s.activeSpans with
    | some sp =>
        let status := if success then SpanStatus.unset else SpanStatus.error
        { s with
          activeSpans := eraseKey spanId s.activeSpans,
          events := s.events ++ [TelemetryEvent.spanEnded sp.name sp.attrs status] }
    | none => s
  else s

/-- Embeds `EmbraceService.addSpanAttribute` (lines 249-259): no-op when not
initialized or the handle is unknown; else `span.setAttribute(key, value)`
on the live span. -/
def addSpanAttribute (s : EmbraceState) (spanId key value : String) : EmbraceState :=
  if s.isInitialized then
    match lookupKey spanId s.activeSpans with
    | some sp =>
        { s with activeSpans :=
            setKey spanId { sp with attrs := setKey key value sp.attrs } s.activeSpans }
    | none => s
  else s

/-- Embeds `EmbraceService.recordCompletedSpan` (lines 261-281): no-op when
not initialized or the tracer is unavailable; else directly emits one closed
span with the given timestamps and status OK when `success`, ERROR
otherwise. The registry is not touched. -/
def recordCompletedSpan (s : EmbraceState) (name : String) (startTime endTime : Nat)
    (attributes : List (String × String)) (success : Bool) : EmbraceState :=
  if s.isInitialized ∧ s.hasTracer then
    { s with events := s.events ++
        [TelemetryEvent.completedSpan name startTime endTime attributes
          (if success then SpanStatus.ok else SpanStatus.error)] }
  else s

/-- Embeds `EmbraceService.recordNetworkRequest` (lines 301-316): no-op when
not initialized, else one backend `recordNetworkRequest` call. -/
def recordNetworkRequest (s : EmbraceState) (url method : String)
    (startTime endTime bytesSent bytesReceived statusCode : Nat) : EmbraceState :=
  if s.isInitialized then
    { s with events := s.events ++
        [TelemetryEvent.networkRequest url method startTime endTime
          bytesSent bytesReceived statusCode] }
  else s

/-- Embeds `EmbraceService.recordNetworkError` (lines 318-332): no-op when
not initialized, else one backend `logNetworkClientError` call. -/
def recordNetworkError (s : EmbraceState) (url method : String)
    (startTime endTime : Nat) (errorType errorMessage : String) : EmbraceState :=
  if s.isInitialized then
    { s with events := s.events ++
        [TelemetryEvent.networkError url method startTime endTime errorType errorMessage] }
  else s

/-- Embeds `EmbraceService.addSessionProperty` (lines 384-391): no-op when
not initialized, else one backend `addSessionProperty(key, value, permanent)`
call. -/
def addSessionProperty (s : EmbraceState) (key value : String) (permanent : Bool) :
    EmbraceState :=
  if s.isInitialized then
    { s with events := s.events ++ [TelemetryEvent.sessionPropertySet key value permanent] }
  else s

/-- Embeds `EmbraceService.removeSessionProperty` (lines 393-400). -/
def removeSessionProperty (s : EmbraceState) (key : String) : EmbraceState :=
  if s.isInitialized then
    { s with events := s.events ++ [TelemetryEvent.sessionPropertyRemoved key] }
  else s

end EmbraceService

/-- A value thrown by a JS operation: either an `Error` instance (carrying
its `message`) or any other value (`error instanceof Error` is false). -/
inductive Thrown
  | jsError (message : String)
  | other (repr : String)
deriving DecidableEq, Repr

/-- Embeds the expression
`error instanceof Error ? error.message : 'Unknown error'`
from `APIService.executeRequest` (part_004 lines 79-80). -/
def thrownMessage : Thrown → String
  | .jsError m => m
  | .other _ => "Unknown error"

/-- The simulated API base URL (part_004 line 19). -/
def API_BASE_URL : String := "https://api.embrace-ecommerce.com/v1"

/-- A request descriptor, from `interface NetworkRequestOptions`
(part_004 lines 21-25). The body type is abstract; `B` plays the role of
`unknown`. -/
structure NetworkRequestOptions (B : Type) where
  endpoint : String
  method : String
  body : Option B

namespace APIService

/-- Embeds `APIService.executeRequest` (part_004 lines 35-100). The wrapped
asynchronous operation is represented by its outcome (`Except Thrown T`);
`JSON.stringify` on the body and the result is represented by the functions
`stringifyB` and `stringifyT`; the two `Date.now()` reads are `t0` (before
the operation) and `t1` (after it); `counter` is the value of
`requestIdCounter` before the call (`generateRequestId` pre-increments it).
Returns the new service state together with the value returned, or the
failure re-thrown, to the caller. -/
def executeRequest {B T : Type} (stringifyB : B → String) (stringifyT : T → String)
    (s : EmbraceState) (counter : Nat) (options : NetworkRequestOptions B)
    (t0 t1 : Nat) (outcome : Except Thrown T) : EmbraceState × Except Thrown T :=
  let url := API_BASE_URL ++ options.endpoint
  let requestId := "req_" ++ toString (counter + 1) ++ "_" ++ toString t0
  let res := EmbraceService.startSpan s ("api_" ++ options.endpoint)
    [("http.url", url), ("http.method", options.method), ("request.id", requestId)] t0
  let s1 := res.1
  let spanId := res.2
  match outcome with
  | .ok result =>
      let bytesSent := match options.body with
        | some b => (stringifyB b).length
        | none => 0
      let s2 := EmbraceService.recordNetworkRequest s1 url options.method t0 t1
        bytesSent (stringifyT result).length 200
      let s3 := match spanId with
        | some sid =>
            let sa := EmbraceService.addSpanAttribute s2 sid "http.status_code" "200"
            let sb := EmbraceService.addSpanAttribute sa sid "duration_ms" (toString (t1 - t0))
            EmbraceService.endSpan sb sid true
        | none => s2
      (s3, .ok result)
  | .error e =>
      let errorMessage := thrownMessage e
      let s2 := EmbraceService.recordNetworkError s1 url options.method t0 t1
        "api_error" errorMessage
      let s3 := match spanId with
        | some sid =>
            EmbraceService.endSpan
              (EmbraceService.addSpanAttribute s2 sid "error.message" errorMessage) sid false
        | none => s2
      (s3, .error e)

end APIService

/-- Outcome of the crash-simulation arming evaluation, mirroring the
three-state machine of the spec: Idle when the CI flag is off, Armed when
`willCrash` is true, Disarmed otherwise. -/
inductive CIOutcome
  | idle
  | armed
  | disarmed
deriving DecidableEq, Repr

namespace EmbraceService

/-- Embeds `EmbraceService.startCICrashSimulation` (embrace.ts lines
768-800). `ciMode` is `EMBRACE_CONFIG.ciMode`; `roll` is the value of
`Math.floor(Math.random() * 100)`; `delayRoll` is the value of
`Math.floor(Math.random() * 15000)`. Returns the new state, the arming
outcome, and the list of delays (ms) of the timers scheduled via
`setTimeout`. When `ciMode` is false the method returns immediately;
otherwise it first sets session property `ci_mode = "enabled"`, then rolls:
`willCrash = roll > 79`; if armed it sets `ci_crash_scheduled = "true"` and
schedules one timer with delay `20000 + delayRoll`; if disarmed it sets
`ci_crash_scheduled = "false"` and schedules nothing. -/
def startCICrashSimulation (s : EmbraceState) (ciMode : Bool) (roll delayRoll : Nat) :
    EmbraceState × CIOutcome × List Nat :=
  if ciMode then
    let s1 := addSessionProperty s "ci_mode" "enabled" false
    if roll > 79 then
      let s2 := addSessionProperty s1 "ci_crash_scheduled" "true" false
      (s2, CIOutcome.armed, [20000 + delayRoll])
    else
      (addSessionProperty s1 "ci_crash_scheduled" "false" false, CIOutcome.disarmed, [])
  else (s, CIOutcome.idle, [])

end EmbraceService

/-! Trace semantics for sequences of `startSpan` and `endSpan` calls, used to
settle the span-registry invariant. A `SpanCall.startC name time` stands for
a `startSpan(name, …)` call made when `Date.now()` returns `time`; the
handle it returns on an initialized service is `name + "_" + time`. -/

/-- One call against the span registry. -/
inductive SpanCall
  | startC (name : String) (time : Nat)
  | endC (spanId : String) (success : Bool)
deriving DecidableEq, Repr

/-- Execute one call against the service state. -/
def stepCall (s : EmbraceState) : SpanCall → EmbraceState
  | .startC n t => (EmbraceService.startSpan s n [] t).1
  | .endC h b => EmbraceService.endSpan s h b

/-- Execute a sequence of calls. -/
def runCalls (s : EmbraceState) (ops : List SpanCall) : EmbraceState :=
  ops.foldl stepCall s

/-- The handles returned by the `startSpan` calls of a trace (on an
initialized service with a tracer, `startSpan` always returns the handle
`name + "_" + time`). -/
def startHandles : List SpanCall → List String
  | [] => []
  | .startC n t :: rest => (n ++ "_" ++ toString t) :: startHandles rest
  | .endC _ _ :: rest => startHandles rest

/-- How one call changes whether handle `k` is registered: a start that
returns `k` registers it, an end on `k` removes it, everything else leaves
it alone. -/
def stepPresent (k : String) (b : Bool) : SpanCall → Bool
  | .startC n t => if n ++ "_" ++ toString t = k then true else b
  | .endC h _ => if h = k then false else b

/-- Whether handle `k` is registered after running a trace from the empty
registry: true exactly when some start call returned `k` and no end call on
`k` came after it. -/
def presentAfter (ops : List SpanCall) (k : String) : Bool :=
  ops.foldl (stepPresent k) false

/-- A predicate picking out network-request records in the event trace. -/
def TelemetryEvent.isNetworkRequest : TelemetryEvent → Bool
  | .networkRequest _ _ _ _ _ _ _ => true
  | _ => false

/-- A predicate picking out network-error records in the event trace. -/
def TelemetryEvent.isNetworkError : TelemetryEvent → Bool
  | .networkError _ _ _ _ _ _ => true
  | _ => false

/-- A concrete initialized state holding one live span under handle
`checkout_5`, used as the concrete input of several witnesses. -/
def oneSpanState : EmbraceState :=
  { isInitialized := true, hasTracer := true,
    activeSpans := [("checkout_5", { name := "checkout", attrs := [] })],
    events := [] }

/-- A concrete state in which the service was never initialized. -/
def uninitState : EmbraceState :=
  { isInitialized := false, hasTracer := false, activeSpans := [], events := [] }

/-! Basic lemmas about the association-list operations. -/

theorem lookupKey_setKey_self {α : Type} (k : String) (v : α) (l : List (String × α)) :
    lookupKey k (setKey k v l) = some v := by
  induction l with
  | nil => simp [setKey, lookupKey]
  | cons hd tl ih =>
      obtain ⟨k2, v2⟩ := hd
      by_cases h : k2 = k
      · simp [setKey, h, lookupKey]
      · simp [setKey, h, lookupKey, ih]

theorem lookupKey_setKey_ne {α : Type} {h k : String} (v : α) (l : List (String × α))
    (hne : h ≠ k) : lookupKey k (setKey h v l) = lookupKey k l := by
  induction l with
  | nil => simp [setKey, lookupKey, hne]
  | cons hd tl ih =>
      obtain ⟨k2, v2⟩ := hd
      by_cases h2 : k2 = h
      · subst h2
        simp [setKey, lookupKey, hne, ih]
      · simp [setKey, h2, lookupKey, ih]

theorem eraseKey_cons {α : Type} (h k2 : String) (v2 : α) (tl : List (String × α)) :
    eraseKey h ((k2, v2) :: tl) =
      if k2 = h then eraseKey h tl else (k2, v2) :: eraseKey h tl := by
  by_cases hh : k2 = h <;> simp [eraseKey, hh]

theorem lookupKey_eraseKey_self {α : Type} (k : String) (l : List (String × α)) :
    lookupKey k (eraseKey k l) = none := by
  induction l with
  | nil => simp [eraseKey, lookupKey]
  | cons hd tl ih =>
      obtain ⟨k2, v2⟩ := hd
      rw [eraseKey_cons]
      by_cases h2 : k2 = k
      · simp [h2, ih]
      · simp [h2, lookupKey, ih]

theorem lookupKey_eraseKey_ne {α : Type} {h k : String} (l : List (String × α))
    (hne : h ≠ k) : lookupKey k (eraseKey h l) = lookupKey k l := by
  induction l with
  | nil => simp [eraseKey, lookupKey]
  | cons hd tl ih =>
      obtain ⟨k2, v2⟩ := hd
      rw [eraseKey_cons]
      by_cases h2 : k2 = h
      · subst h2
        simp [lookupKey, hne, ih]
      · by_cases h3 : k2 = k
        · simp [lookupKey, h2, h3, Ne.symm hne]
        · simp [lookupKey, h2, h3, ih]

theorem containsKey_nil_of_forall {α : Type} (l : List (String × α))
    (h : ∀ k, containsKey k l = false) : l = [] := by
  cases l with
  | nil => rfl
  | cons hd tl =>
      exfalso
      have := h hd.1
      simp [containsKey, lookupKey] at this

theorem stepCall_isInitialized (s : EmbraceState) (c : SpanCall) :
    (stepCall s c).isInitialized = s.isInitialized := by
  cases c with
  | startC n t =>
      simp only [stepCall, EmbraceService.startSpan]
      split <;> rfl
  | endC h b =>
      simp only [stepCall, EmbraceService.endSpan]
      split
      · split <;> rfl
      · rfl

theorem stepCall_hasTracer (s : EmbraceState) (c : SpanCall) :
    (stepCall s c).hasTracer = s.hasTracer := by
  cases c with
  | startC n t =>
      simp only [stepCall, EmbraceService.startSpan]
      split <;> rfl
  | endC h b =>
      simp only [stepCall, EmbraceService.endSpan]
      split
      · split <;> rfl
      · rfl

theorem containsKey_stepCall (s : EmbraceState) (c : SpanCall) (k : String)
    (hi : s.isInitialized = true) (ht : s.hasTracer = true) :
    containsKey k (stepCall s c).activeSpans =
      stepPresent k (containsKey k s.activeSpans) c := by
  cases c with
  | startC n t =>
      simp only [stepCall, EmbraceService.startSpan, hi, ht, and_self, if_true, stepPresent]
      by_cases hk : n ++ "_" ++ toString t = k
      · simp [hk, containsKey, lookupKey_setKey_self]
      · simp [hk, containsKey, lookupKey_setKey_ne _ _ hk]
  | endC h b =>
      simp only [stepCall, EmbraceService.endSpan, hi, if_true, stepPresent]
      cases hl : lookupKey h s.activeSpans with
      | some sp =>
          by_cases hk : h = k
          · subst hk
            simp [containsKey, lookupKey_eraseKey_self]
          · simp [hk, containsKey, lookupKey_eraseKey_ne _ hk]
      | none =>
          by_cases hk : h = k
          · subst hk
            simp [containsKey, hl]
          · simp [hk]

theorem containsKey_runCalls (ops : List SpanCall) (s : EmbraceState) (k : String)
    (hi : s.isInitialized = true) (ht : s.hasTracer = true) :
    containsKey k (runCalls s ops).activeSpans =
      ops.foldl (stepPresent k) (containsKey k s.activeSpans) := by
  induction ops generalizing s with
  | nil => rfl
  | cons c rest ih =>
      have hi2 : (stepCall s c).isInitialized = true := by
        rw [stepCall_isInitialized]; exact hi
      have ht2 : (stepCall s c).hasTracer = true := by
        rw [stepCall_hasTracer]; exact ht
      calc containsKey k (runCalls (stepCall s c) rest).activeSpans
          = rest.foldl (stepPresent k) (containsKey k (stepCall s c).activeSpans) :=
            ih (stepCall s c) hi2 ht2
        _ = rest.foldl (stepPresent k) (stepPresent k (containsKey k s.activeSpans) c) := by
            rw [containsKey_stepCall s c k hi ht]

theorem presentAfter_of_not_started (ops : List SpanCall) (k : String)
    (h : k ∉ startHandles ops) : presentAfter ops k = false := by
  have main : ∀ l : List SpanCall, k ∉ startHandles l → l.foldl (stepPresent k) false = false := by
    intro l
    induction l with
    | nil => intro _; rfl
    | cons c rest ih =>
        intro hmem
        cases c with
        | startC n t =>
            have hnostart : ¬ (n ++ "_" ++ toString t = k) := by
              intro he
              exact hmem (by simp [startHandles, he])
            have hrest : k ∉ startHandles rest := by
              intro hr
              exact hmem (by simp [startHandles, hr])
            simpa [stepPresent, hnostart] using ih hrest
        | endC h2 b =>
            have hrest : k ∉ startHandles rest := by
              intro hr
              exact hmem (by simp [startHandles, hr])
            cases hh : decide (h2 = k) with
            | true =>
                have : h2 = k := of_decide_eq_true hh
                simpa [stepPresent, this] using ih hrest
            | false =>
                have : ¬ h2 = k := of_decide_eq_false hh
                simpa [stepPresent, this] using ih hrest
  exact main ops h

/-! Claim theorems. -/

/-- C1, counterexample. The claim states that `endSpan(h, true)` records a
terminal OK status on the span before closing it. On the concrete state
`oneSpanState` (handle `checkout_5` present in the registry),
`endSpan("checkout_5", true)` closes the span with status UNSET — the code
only ever calls `setStatus` with ERROR when `success` is false and never
sets OK — so the recorded status is not OK. -/
theorem C1_counterexample :
    (EmbraceService.endSpan oneSpanState "checkout_5" true).events =
      [TelemetryEvent.spanEnded "checkout" [] SpanStatus.unset] ∧
    SpanStatus.unset ≠ SpanStatus.ok := by
  decide

/-- C1, amended. For every handle present in the registry of an initialized
service, `endSpan(h, false)` records a terminal ERROR status on the span
before closing it and removes the handle, while `endSpan(h, true)` (or with
the success argument omitted, whose default is true) closes the span and
removes the handle without recording any status: the span is emitted with
its status still UNSET, not OK. -/
theorem C1_endSpan_terminal_status (s : EmbraceState) (h : String) (sp : SpanRec)
    (hi : s.isInitialized = true) (hl : lookupKey h s.activeSpans = some sp) :
    EmbraceService.endSpan s h false =
      { s with activeSpans := eraseKey h s.activeSpans,
               events := s.events ++
                 [TelemetryEvent.spanEnded sp.name sp.attrs SpanStatus.error] } ∧
    EmbraceService.endSpan s h true =
      { s with activeSpans := eraseKey h s.activeSpans,
               events := s.events ++
                 [TelemetryEvent.spanEnded sp.name sp.attrs SpanStatus.unset] } := by
  constructor <;> simp [EmbraceService.endSpan, hi, hl]

/-- C1, witness: the amended theorem applied to the concrete one-span
state. -/
theorem C1_endSpan_terminal_status_witness :
    EmbraceService.endSpan oneSpanState "checkout_5" false =
      { oneSpanState with
        activeSpans := eraseKey "checkout_5" oneSpanState.activeSpans,
        events := oneSpanState.events ++
          [TelemetryEvent.spanEnded "checkout" [] SpanStatus.error] } :=
  (C1_endSpan_terminal_status oneSpanState "checkout_5"
    { name := "checkout", attrs := [] } rfl rfl).1

/-- C2, counterexample. The claim states that the session property
`ci_mode = "enabled"` is set only in the armed case, never in the disarmed
case. With the CI flag true and the random roll 0 (disarmed), the code still
sets `ci_mode = "enabled"`: the property is set unconditionally before the
roll (embrace.ts line 774). -/
theorem C2_counterexample :
    (EmbraceService.startCICrashSimulation initState true 0 0).2.1 = CIOutcome.disarmed ∧
    TelemetryEvent.sessionPropertySet "ci_mode" "enabled" false ∈
      (EmbraceService.startCICrashSimulation initState true 0 0).1.events := by
  decide

/-- C2, amended. When the CI flag is true on an initialized service, the
arming evaluation records `ci_crash_scheduled` as "true" when the roll arms
the scheduler (roll > 79) and "false" when it does not, and it sets
`ci_mode = "enabled"` in both the armed and the disarmed case — the
`ci_mode` property is written unconditionally before the roll, not only
when armed. -/
theorem C2_ci_session_properties (s : EmbraceState) (roll delayRoll : Nat)
    (hi : s.isInitialized = true) (hroll : roll < 100) :
    (EmbraceService.startCICrashSimulation s true roll delayRoll).1.events =
      s.events ++
        [TelemetryEvent.sessionPropertySet "ci_mode" "enabled" false,
         TelemetryEvent.sessionPropertySet "ci_crash_scheduled"
           (if 79 < roll then "true" else "false") false] ∧
    (EmbraceService.startCICrashSimulation s true roll delayRoll).2.1 =
      (if 79 < roll then CIOutcome.armed else CIOutcome.disarmed) := by
  by_cases hc : 79 < roll <;>
    simp [EmbraceService.startCICrashSimulation, EmbraceService.addSessionProperty, hi, hc]

/-- C2, witness: the amended theorem applied at roll 85 (armed branch) on
the initialized state. -/
theorem C2_ci_session_properties_witness :
    (EmbraceService.startCICrashSimulation initState true 85 0).1.events =
      initState.events ++
        [TelemetryEvent.sessionPropertySet "ci_mode" "enabled" false,
         TelemetryEvent.sessionPropertySet "ci_crash_scheduled" "true" false] :=
  (C2_ci_session_properties initState 85 0 rfl (by decide)).1

/-- C5. The arming evaluation transitions to Armed exactly when the roll
(a uniform integer in [0,100)) exceeds 79, in which case it schedules
exactly one single-shot timer whose delay `20000 + delayRoll` (with
`delayRoll` uniform in [0,15000)) lies in [20000, 35000); on a roll of
0–79 it transitions to Disarmed and schedules nothing; and with the CI flag
false it leaves the state untouched (no session property is set) and
creates no timer. -/
theorem C5_crash_scheduler (s : EmbraceState) (roll delayRoll : Nat)
    (hroll : roll < 100) (hdelay : delayRoll < 15000) :
    (EmbraceService.startCICrashSimulation s true roll delayRoll).2.1 =
      (if 79 < roll then CIOutcome.armed else CIOutcome.disarmed) ∧
    (EmbraceService.startCICrashSimulation s true roll delayRoll).2.2 =
      (if 79 < roll then [20000 + delayRoll] else []) ∧
    20000 ≤ 20000 + delayRoll ∧ 20000 + delayRoll < 35000 ∧
    EmbraceService.startCICrashSimulation s false roll delayRoll =
      (s, CIOutcome.idle, []) := by
  refine ⟨?_, ?_, by omega, by omega, ?_⟩
  · by_cases hc : 79 < roll <;> simp [EmbraceService.startCICrashSimulation, hc]
  · by_cases hc : 79 < roll <;> simp [EmbraceService.startCICrashSimulation, hc]
  · simp [EmbraceService.startCICrashSimulation]

/-- C5, witness: the scheduler applied at roll 90 and delay roll 100 on the
initialized state arms and schedules the single timer. -/
theorem C5_crash_scheduler_witness :
    (EmbraceService.startCICrashSimulation initState true 90 100).2.2 = [20000 + 100] :=
  (C5_crash_scheduler initState 90 100 (by decide) (by decide)).2.1

/-- C7. If the service has not been initialized, then setting or removing a
session property, adding a breadcrumb, and every log call (info, warning,
error, handled error) return with the state unchanged: no backend call is
made and, the guard returning before any fallible call, nothing is raised
to the caller. -/
theorem C7_noop_before_init (s : EmbraceState) (k v m e : String) (p : Bool)
    (props : Option (List (String × String))) (hi : s.isInitialized = false) :
    EmbraceService.addSessionProperty s k v p = s ∧
    EmbraceService.removeSessionProperty s k = s ∧
    EmbraceService.addBreadcrumb s m = s ∧
    EmbraceService.logInfo s m props = s ∧
    EmbraceService.logWarning s m props = s ∧
    EmbraceService.logError s m props = s ∧
    EmbraceService.logHandledError s e props = s := by
  refine ⟨?_, ?_, ?_, ?_, ?_, ?_, ?_⟩ <;>
    simp [EmbraceService.addSessionProperty, EmbraceService.removeSessionProperty,
      EmbraceService.addBreadcrumb, EmbraceService.logInfo, EmbraceService.logWarning,
      EmbraceService.logError, EmbraceService.logHandledError, hi]

/-- C7, witness: the no-op theorem applied to the concrete uninitialized
state. -/
theorem C7_noop_before_init_witness :
    EmbraceService.addSessionProperty uninitState "k" "v" false = uninitState :=
  (C7_noop_before_init uninitState "k" "v" "m" "e" false none rfl).1

/-- C8. A `recordCompletedSpan` call on an initialized service with a tracer
leaves the active-span registry exactly as it was and directly emits one
already-closed span carrying the given start and end timestamps and a
terminal status of OK when `success` is true and ERROR when it is false. -/
theorem C8_recordCompletedSpan_frame (s : EmbraceState) (name : String)
    (startTime endTime : Nat) (attributes : List (String × String)) (success : Bool)
    (hi : s.isInitialized = true) (ht : s.hasTracer = true) :
    (EmbraceService.recordCompletedSpan s name startTime endTime attributes
        success).activeSpans = s.activeSpans ∧
    (EmbraceService.recordCompletedSpan s name startTime endTime attributes
        success).events =
      s.events ++ [TelemetryEvent.completedSpan name startTime endTime attributes
        (if success then SpanStatus.ok else SpanStatus.error)] := by
  constructor <;> simp [EmbraceService.recordCompletedSpan, hi, ht]

/-- C8, witness: the frame theorem applied on the initialized empty state. -/
theorem C8_recordCompletedSpan_frame_witness :
    (EmbraceService.recordCompletedSpan initState "load" 1 2 [] true).activeSpans =
      initState.activeSpans :=
  (C8_recordCompletedSpan_frame initState "load" 1 2 [] true rfl rfl).1

/-- C6. Span-registry invariant, over arbitrary sequences of `startSpan` and
`endSpan` calls on an initialized service whose start calls return pairwise
distinct handles. (1) Ending a handle that is not in the registry changes
nothing (and, the lookup miss falling through the `if (span)` guard, throws
nothing). (2) After running any trace from the freshly initialized state, a
handle is registered exactly when some start call returned it and no
subsequent end call named it — so a handle is present from the moment
`startSpan` returns it until `endSpan` is called on it and absent
afterwards. (3) Once every returned handle has been ended, the registry is
empty. -/
theorem C6_span_registry (ops : List SpanCall)
    (hnd : (startHandles ops).Nodup) :
    (∀ (s : EmbraceState) (h : String) (b : Bool),
      lookupKey h s.activeSpans = none → EmbraceService.endSpan s h b = s) ∧
    (∀ k : String,
      containsKey k (runCalls initState ops).activeSpans = presentAfter ops k) ∧
    ((∀ k ∈ startHandles ops, presentAfter ops k = false) →
      (runCalls initState ops).activeSpans = []) := by
  have char : ∀ k : String,
      containsKey k (runCalls initState ops).activeSpans = presentAfter ops k := by
    intro k
    have := containsKey_runCalls ops initState k rfl rfl
    simpa [presentAfter, containsKey, lookupKey, initState] using this
  refine ⟨?_, char, ?_⟩
  · intro s h b hl
    simp [EmbraceService.endSpan, hl]
  · intro hall
    apply containsKey_nil_of_forall
    intro k
    rw [char k]
    by_cases hk : k ∈ startHandles ops
    · exact hall k hk
    · exact presentAfter_of_not_started ops k hk

/-- C6, witness: a concrete trace that starts one span and ends it brings
the registry back to empty. -/
theorem C6_span_registry_witness :
    (runCalls initState
      [SpanCall.startC "checkout" 7, SpanCall.endC "checkout_7" true]).activeSpans = [] :=
  (C6_span_registry [SpanCall.startC "checkout" 7, SpanCall.endC "checkout_7" true]
    (by decide)).2.2 (by decide)

/-- C9. The business outcome of `executeRequest` — the value returned or the
failure re-raised to the caller — is exactly the wrapped operation's own
outcome, independent of the instrumentation state: running it on any two
service states (in particular uninitialized, where all telemetry calls are
no-ops and `startSpan` returns null, versus initialized) yields the same
result for the caller. -/
theorem C9_business_outcome_independent {B T : Type}
    (stringifyB : B → String) (stringifyT : T → String)
    (s1 s2 : EmbraceState) (c1 c2 : Nat) (options : NetworkRequestOptions B)
    (t0 t1 : Nat) (outcome : Except Thrown T) :
    (APIService.executeRequest stringifyB stringifyT s1 c1 options t0 t1 outcome).2 =
      outcome ∧
    (APIService.executeRequest stringifyB stringifyT s1 c1 options t0 t1 outcome).2 =
      (APIService.executeRequest stringifyB stringifyT s2 c2 options t0 t1 outcome).2 := by
  cases outcome <;>
    simp [APIService.executeRequest]

/-- C4. When the wrapped operation succeeds with result `result` on an
initialized service with a tracer, `executeRequest` emits exactly one
NetworkRequestRecord with status code 200, `bytesReceived` the serialized
length of the result, and `bytesSent` the serialized length of the body
when present and 0 otherwise; it tags the span with the status code and the
elapsed duration, ends it with success = true (the span closes with its
status still UNSET, which is what `endSpan(…, true)` produces), and returns
the result to the caller. -/
theorem C4_executeRequest_success {B T : Type}
    (stringifyB : B → String) (stringifyT : T → String)
    (s : EmbraceState) (counter : Nat) (options : NetworkRequestOptions B)
    (t0 t1 : Nat) (result : T)
    (hi : s.isInitialized = true) (ht : s.hasTracer = true) :
    (APIService.executeRequest stringifyB stringifyT s counter options t0 t1
        (Except.ok result)).2 = Except.ok result ∧
    (APIService.executeRequest stringifyB stringifyT s counter options t0 t1
        (Except.ok result)).1.events =
      s.events ++
        [TelemetryEvent.networkRequest (API_BASE_URL ++ options.endpoint)
           options.method t0 t1
           (match options.body with
            | some b => (stringifyB b).length
            | none => 0)
           (stringifyT result).length 200,
         TelemetryEvent.spanEnded ("api_" ++ options.endpoint)
           [("http.url", API_BASE_URL ++ options.endpoint),
            ("http.method", options.method),
            ("request.id", "req_" ++ toString (counter + 1) ++ "_" ++ toString t0),
            ("http.status_code", "200"),
            ("duration_ms", toString (t1 - t0))]
           SpanStatus.unset] ∧
    ((APIService.executeRequest stringifyB stringifyT s counter options t0 t1
        (Except.ok result)).1.events.countP
          (fun ev => TelemetryEvent.isNetworkRequest ev)) =
      (s.events.countP (fun ev => TelemetryEvent.isNetworkRequest ev)) + 1 := by
  refine ⟨?_, ?_, ?_⟩
  · simp [APIService.executeRequest]
  · simp [APIService.executeRequest, EmbraceService.startSpan,
      EmbraceService.recordNetworkRequest, EmbraceService.addSpanAttribute,
      EmbraceService.endSpan, hi, ht, lookupKey_setKey_self, setKey]
  · simp [APIService.executeRequest, EmbraceService.startSpan,
      EmbraceService.recordNetworkRequest, EmbraceService.addSpanAttribute,
      EmbraceService.endSpan, hi, ht, lookupKey_setKey_self, setKey,
      List.countP_append, TelemetryEvent.isNetworkRequest]

/-- C4, witness: a successful GET of `/products` on the initialized state
returns the result unchanged. -/
theorem C4_executeRequest_success_witness :
    (APIService.executeRequest id id initState 0
        { endpoint := "/products", method := "GET", body := some "xy" }
        100 600 (Except.ok "res")).2 = Except.ok "res" :=
  (C4_executeRequest_success id id initState 0
    { endpoint := "/products", method := "GET", body := some "xy" }
    100 600 "res" rfl rfl).1

/-- C3. When the wrapped operation throws an `Error` with message `msg` on
an initialized service with a tracer, `executeRequest` emits exactly one
NetworkErrorRecord whose error type is "api_error" and whose error message
is `msg`, tags the span with the error message, ends it with
success = false (the span closes with terminal status ERROR), and re-raises
to its caller exactly the failure value the operation threw. -/
theorem C3_executeRequest_failure {B T : Type}
    (stringifyB : B → String) (stringifyT : T → String)
    (s : EmbraceState) (counter : Nat) (options : NetworkRequestOptions B)
    (t0 t1 : Nat) (msg : String)
    (hi : s.isInitialized = true) (ht : s.hasTracer = true) :
    (APIService.executeRequest stringifyB stringifyT s counter options t0 t1
        (Except.error (Thrown.jsError msg) : Except Thrown T)).2 =
      Except.error (Thrown.jsError msg) ∧
    (APIService.executeRequest stringifyB stringifyT s counter options t0 t1
        (Except.error (Thrown.jsError msg) : Except Thrown T)).1.events =
      s.events ++
        [TelemetryEvent.networkError (API_BASE_URL ++ options.endpoint)
           options.method t0 t1 "api_error" msg,
         TelemetryEvent.spanEnded ("api_" ++ options.endpoint)
           [("http.url", API_BASE_URL ++ options.endpoint),
            ("http.method", options.method),
            ("request.id", "req_" ++ toString (counter + 1) ++ "_" ++ toString t0),
            ("error.message", msg)]
           SpanStatus.error] ∧
    ((APIService.executeRequest stringifyB stringifyT s counter options t0 t1
        (Except.error (Thrown.jsError msg) : Except Thrown T)).1.events.countP
          (fun ev => TelemetryEvent.isNetworkError ev)) =
      (s.events.countP (fun ev => TelemetryEvent.isNetworkError ev)) + 1 := by
  refine ⟨?_, ?_, ?_⟩
  · simp [APIService.executeRequest]
  · simp [APIService.executeRequest, EmbraceService.startSpan,
      EmbraceService.recordNetworkError, EmbraceService.addSpanAttribute,
      EmbraceService.endSpan, hi, ht, lookupKey_setKey_self, setKey, thrownMessage]
  · simp [APIService.executeRequest, EmbraceService.startSpan,
      EmbraceService.recordNetworkError, EmbraceService.addSpanAttribute,
      EmbraceService.endSpan, hi, ht, lookupKey_setKey_self, setKey, thrownMessage,
      List.countP_append, TelemetryEvent.isNetworkError]

/-- C3, witness: an operation throwing `Error("Payment declined")` has that
exact failure re-raised to the caller. -/
theorem C3_executeRequest_failure_witness :
    (APIService.executeRequest id id initState 0
        { endpoint := "/payments/process", method := "POST", body := some "b" }
        100 600 (Except.error (Thrown.jsError "Payment declined") :
          Except Thrown String)).2 =
      Except.error (Thrown.jsError "Payment declined") :=
  (C3_executeRequest_failure id id initState 0
    { endpoint := "/payments/process", method := "POST", body := some "b" }
    100 600 "Payment declined" rfl rfl).1

/-- C10. When the wrapped operation throws a value that is not an `Error`
instance, `executeRequest` emits a NetworkErrorRecord whose error message is
the literal string "Unknown error", tags the span's `error.message`
attribute with "Unknown error", and still re-raises the original non-Error
value unchanged to the caller. -/
theorem C10_executeRequest_non_error_throw {B T : Type}
    (stringifyB : B → String) (stringifyT : T → String)
    (s : EmbraceState) (counter : Nat) (options : NetworkRequestOptions B)
    (t0 t1 : Nat) (v : String)
    (hi : s.isInitialized = true) (ht : s.hasTracer = true) :
    (APIService.executeRequest stringifyB stringifyT s counter options t0 t1
        (Except.error (Thrown.other v) : Except Thrown T)).2 =
      Except.error (Thrown.other v) ∧
    (APIService.executeRequest stringifyB stringifyT s counter options t0 t1
        (Except.error (Thrown.other v) : Except Thrown T)).1.events =
      s.events ++
        [TelemetryEvent.networkError (API_BASE_URL ++ options.endpoint)
           options.method t0 t1 "api_error" "Unknown error",
         TelemetryEvent.spanEnded ("api_" ++ options.endpoint)
           [("http.url", API_BASE_URL ++ options.endpoint),
            ("http.method", options.method),
            ("request.id", "req_" ++ toString (counter + 1) ++ "_" ++ toString t0),
            ("error.message", "Unknown error")]
           SpanStatus.error] := by
  constructor
  · simp [APIService.executeRequest]
  · simp [APIService.executeRequest, EmbraceService.startSpan,
      EmbraceService.recordNetworkError, EmbraceService.addSpanAttribute,
      EmbraceService.endSpan, hi, ht, lookupKey_setKey_self, setKey, thrownMessage]

/-- C10, witness: an operation throwing the non-Error value 42 has that
value re-raised unchanged. -/
theorem C10_executeRequest_non_error_throw_witness :
    (APIService.executeRequest id id initState 0
        { endpoint := "/products", method := "GET", body := none }
        100 600 (Except.error (Thrown.other "42") : Except Thrown String)).2 =
      Except.error (Thrown.other "42") :=
  (C10_executeRequest_non_error_throw id id initState 0
    { endpoint := "/products", method := "GET", body := none }
    100 600 "42" rfl rfl).1
